import Mathlib

/-!
Shallow embedding of `src/services/intelligent_agent.py` (class `IntelligentAgent`).

Conventions of the embedding:
* Python dict fields that may be absent or `None` are `Option` fields; the code's
  `x.get(k) or ''` / `x.get(k, 0)` idioms become `Option.getD`.
* Python floats are modelled as `ℚ` (the scoring arithmetic is exact small-rational
  arithmetic: sums of the constants 1, 0.8, 0.6, 0.5, 0.3, 0.2, 0.1 and one division).
* Python string primitives (`lower`, `in`, `split`, `replace`, slicing,
  `startswith`/`endswith`) are embedded as structurally recursive functions over
  `String.data`, named `py*` below, with the same semantics on the inputs the agent
  feeds them.
* The wall clock enters the Python code twice: `datetime.now(...)` inside the recency
  computation of `_score_message` (applied to the parsed `receivedDateTime` string),
  and `datetime.utcnow().isoformat()` for the `analysis_timestamp` field.  We model
  the first as a parameter `parseDays : String → Option Int` (the message age in whole
  days relative to "now" as computed by `(datetime.now(tz) - received_date).days`;
  `none` when `datetime.fromisoformat` raises and the bare `except` swallows it) and
  the second as a parameter `nowIso : String`.
* `json.loads` on an `attachment_name` criterion of the shape `{"filename": ...}` is
  modelled as a parameter `jsonFilename : String → Option String`: `some f` when the
  string parses to an object carrying a truthy string `filename`, `none` when parsing
  (or the subsequent attribute access) raises and the inner `except` swallows it.
* The Python `list.sort(key=..., reverse=True)` is a stable descending sort; we embed it
  as `List.mergeSort` with the Boolean relation `candLE a b = (b.score ≤ a.score)`,
  which has the same stable-sort semantics (a stable sort w.r.t. a total preorder is
  unique).
-/

namespace InvoiceAgent

/-- Python truthiness of an optional string field: `None` and `''` are falsy. -/
def truthy : Option String → Bool
  | none => false
  | some s => !s.data.isEmpty

/-- The test `listStarts needle hay` is true when `needle` starts `hay` (char lists). -/
def listStarts : List Char → List Char → Bool
  | [], _ => true
  | _ :: _, [] => false
  | a :: as, b :: bs => a == b && listStarts as bs

/-- The test `listContains needle hay` is true when `needle` occurs contiguously in `hay`. -/
def listContains (needle : List Char) : List Char → Bool
  | [] => needle.isEmpty
  | b :: bs => listStarts needle (b :: bs) || listContains needle bs

/-- Python substring test `needle in hay` on strings. -/
def pyIn (needle hay : String) : Bool :=
  listContains needle.data hay.data

/-- Python `s == ''` / falsiness of a string value. -/
def pyEmpty (s : String) : Bool :=
  s.data.isEmpty

/-- Python `s.lower()` (ASCII case folding, which covers the agent inputs). -/
def pyLower (s : String) : String :=
  String.mk (s.data.map Char.toLower)

/-- Python `s.startswith(pre)`. -/
def pyStarts (s pre : String) : Bool :=
  listStarts pre.data s.data

/-- Python `s.endswith(post)`. -/
def pyEnds (s post : String) : Bool :=
  listStarts post.data.reverse s.data.reverse

/-- Python slicing `s[n:]`. -/
def pyDrop (n : Nat) (s : String) : String :=
  String.mk (s.data.drop n)

/-- Helper of `pySplit`: cut a char list at every separator, keeping empty pieces
(Python `str.split(sep)` semantics for a one-char separator). -/
def splitCharAux (p : Char → Bool) : List Char → List Char → List (List Char)
  | [], acc => [acc.reverse]
  | c :: cs, acc =>
    if p c then acc.reverse :: splitCharAux p cs []
    else splitCharAux p cs (c :: acc)

/-- Python `s.split(sep)` for a one-char separator class `p` (empty pieces are kept;
the agent filters non-truthy pieces afterwards, so the whitespace `str.split()`, which
drops empty pieces, is interchangeable with this at every use site). -/
def pySplit (p : Char → Bool) (s : String) : List String :=
  (splitCharAux p s.data []).map String.mk

/-- Helper of `pyReplace`: fuelled left-to-right non-overlapping replacement. -/
def pyReplaceAux (pat rep : List Char) : Nat → List Char → List Char
  | 0, l => l
  | _ + 1, [] => []
  | fuel + 1, c :: cs =>
    if listStarts pat (c :: cs) && !pat.isEmpty then
      rep ++ pyReplaceAux pat rep fuel (List.drop (pat.length - 1) cs)
    else
      c :: pyReplaceAux pat rep fuel cs

/-- Python `s.replace(pat, rep)` for a non-empty pattern (the agent only replaces the
literal `"from:"`). -/
def pyReplace (s pat rep : String) : String :=
  String.mk (pyReplaceAux pat.data rep.data s.data.length s.data)

/-- The `emailAddress` object nested under the `from` field of a message. -/
structure EmailAddress where
  address : Option String
  deriving DecidableEq

/-- The `from` field of an Outlook message. -/
structure FromField where
  emailAddress : Option EmailAddress
  deriving DecidableEq

/-- One attachment record of a message, fields as read by the agent. -/
structure Attachment where
  id : Option String
  name : Option String
  contentType : Option String
  size : Option Int
  deriving DecidableEq

/-- One Outlook message record, fields as read by the agent. -/
structure Message where
  id : Option String
  subject : Option String
  fromField : Option FromField
  receivedDateTime : Option String
  attachments : List Attachment
  deriving DecidableEq

/-- The search-criteria dict handed to `analyze_and_filter_attachments`. -/
structure Criteria where
  sender_email : Option String
  email_subject : Option String
  attachment_name : Option String
  days_back : Option Int
  deriving DecidableEq

/-- Python chain `message.get(from).get(emailAddress).get(address)` with empty-dict
defaults at each level. -/
def Message.senderAddress (m : Message) : Option String :=
  m.fromField.bind (fun f => f.emailAddress.bind (fun e => e.address))

/-- Weight the sender criterion adds to `max_score` in `_score_message`. -/
def senderMax (criteria : Criteria) : ℚ :=
  if truthy criteria.sender_email then 1 else 0

/-- Sender sub-score accumulated into `score` in `_score_message`. -/
def senderScore (message : Message) (criteria : Criteria) : ℚ :=
  if truthy criteria.sender_email then
    let sender_addr := pyLower (message.senderAddress.getD "")
    let t0 := pyLower (criteria.sender_email.getD "")
    let target_sender := if pyStarts t0 "from:" then pyDrop 5 t0 else t0
    if !pyEmpty target_sender && !pyEmpty sender_addr &&
        pyIn target_sender sender_addr then 1
    else if !pyEmpty target_sender && !pyEmpty sender_addr &&
        (pySplit (· == '@') target_sender).any
          (fun part => !pyEmpty part && pyIn part sender_addr)
      then 1/2
    else 0
  else 0

/-- Weight the subject criterion adds to `max_score` in `_score_message`. -/
def subjectMax (criteria : Criteria) : ℚ :=
  if truthy criteria.email_subject then 1 else 0

/-- Subject sub-score accumulated into `score` in `_score_message`. -/
def subjectScore (message : Message) (criteria : Criteria) : ℚ :=
  if truthy criteria.email_subject then
    let subject := pyLower (message.subject.getD "")
    let target_subject := pyLower (criteria.email_subject.getD "")
    if !pyEmpty target_subject && !pyEmpty subject && pyIn target_subject subject then 1
    else if !pyEmpty target_subject && !pyEmpty subject &&
        (pySplit Char.isWhitespace target_subject).any
          (fun word => !pyEmpty word && decide (word.data.length > 2) && pyIn word subject)
      then 3/5
    else 0
  else 0

/-- Weight the received timestamp adds to `max_score` in `_score_message`. -/
def recencyMax (message : Message) : ℚ :=
  if truthy message.receivedDateTime then 1/2 else 0

/-- Recency sub-score accumulated into `score` in `_score_message`: the whole `try`
block contributes `0` whenever the timestamp fails to parse (`parseDays s = none`) or
the division by a zero `days_back` raises, both swallowed by the bare `except`. -/
def recencyScore (parseDays : String → Option Int) (message : Message)
    (criteria : Criteria) : ℚ :=
  match message.receivedDateTime with
  | none => 0
  | some s =>
    if pyEmpty s then 0
    else
      match parseDays s with
      | none => 0
      | some days_ago =>
        let days_back := criteria.days_back.getD 7
        if days_ago ≤ days_back then
          if days_back = 0 then 0
          else (1/2) * (1 - (days_ago : ℚ) / (days_back : ℚ))
        else 0

/-- Method `IntelligentAgent._score_message`: weighted average of the applicable sub-scores. -/
def scoreMessage (parseDays : String → Option Int) (message : Message)
    (criteria : Criteria) : ℚ :=
  let score := senderScore message criteria + subjectScore message criteria +
    recencyScore parseDays message criteria
  let max_score := senderMax criteria + subjectMax criteria + recencyMax message
  if max_score > 0 then score / max_score else 0

/-- Weight the attachment-name criterion adds to `max_score` in `_score_attachment`. -/
def nameMax (criteria : Criteria) : ℚ :=
  if truthy criteria.attachment_name then 1 else 0

/-- Attachment-name sub-score accumulated into `score` in `_score_attachment`. -/
def nameScore (jsonFilename : String → Option String) (attachment : Attachment)
    (criteria : Criteria) : ℚ :=
  if truthy criteria.attachment_name then
    let attachment_name := pyLower (attachment.name.getD "")
    let raw := criteria.attachment_name.getD ""
    let tn0 := pyLower raw
    let target_name :=
      if pyStarts tn0 "\x7b" && pyEnds tn0 "\x7d" then
        match jsonFilename raw with
        | some f => pyLower f
        | none => tn0
      else tn0
    if !pyEmpty target_name && !pyEmpty attachment_name &&
        target_name == attachment_name then 1
    else if !pyEmpty target_name && !pyEmpty attachment_name &&
        (pyIn target_name attachment_name || pyIn attachment_name target_name) then 4/5
    else if !pyEmpty target_name && !pyEmpty attachment_name &&
        pyIn "." target_name && pyIn "." attachment_name then
      if (pySplit (· == '.') target_name).getLastD "" ==
          (pySplit (· == '.') attachment_name).getLastD ""
        then 3/10 else 0
    else 0
  else 0

/-- Content-type sub-score of `_score_attachment` (its fixed weight is 0.3). -/
def typeScore (attachment : Attachment) : ℚ :=
  let content_type := pyLower (attachment.contentType.getD "")
  if pyIn "pdf" content_type then 3/10
  else if ["word", "excel", "document"].any (fun t => pyIn t content_type) then 1/5
  else if pyIn "image" content_type then 1/10
  else 0

/-- Size-plausibility sub-score of `_score_attachment` (its fixed weight is 0.2). -/
def sizeScore (attachment : Attachment) : ℚ :=
  let size := attachment.size.getD 0
  if 1000 ≤ size ∧ size ≤ 10000000 then 1/5
  else if 100 ≤ size ∧ size ≤ 50000000 then 1/10
  else 0

/-- Method `IntelligentAgent._score_attachment`: weighted average of the applicable
sub-scores; the content-type and size weights (0.3 and 0.2) are always applicable. -/
def scoreAttachment (jsonFilename : String → Option String) (attachment : Attachment)
    (criteria : Criteria) : ℚ :=
  let score := nameScore jsonFilename attachment criteria + typeScore attachment +
    sizeScore attachment
  let max_score := nameMax criteria + 3/10 + 1/5
  if max_score > 0 then score / max_score else 0

/-- Method `IntelligentAgent._get_match_reasons`: the human-readable reasons list. -/
def getMatchReasons (message : Message) (attachment : Attachment)
    (criteria : Criteria) : List String :=
  let r1 : List String :=
    if truthy criteria.sender_email then
      let sender_addr := message.senderAddress.getD ""
      let target_sender := pyReplace (criteria.sender_email.getD "") "from:" ""
      if !pyEmpty target_sender && !pyEmpty sender_addr &&
          pyIn (pyLower target_sender) (pyLower sender_addr) then
        ["Sender matches: " ++ sender_addr]
      else []
    else []
  let r2 : List String :=
    if truthy criteria.email_subject then
      let subject := message.subject.getD ""
      let email_subject := criteria.email_subject.getD ""
      if !pyEmpty email_subject && !pyEmpty subject &&
          pyIn (pyLower email_subject) (pyLower subject) then
        ["Subject contains: \x27" ++ email_subject ++ "\x27"]
      else []
    else []
  let r3 : List String :=
    if truthy criteria.attachment_name then
      let attachment_name := attachment.name.getD ""
      let target_name := criteria.attachment_name.getD ""
      if !pyEmpty target_name && !pyEmpty attachment_name &&
          pyIn (pyLower target_name) (pyLower attachment_name) then
        ["Filename matches: " ++ attachment_name]
      else []
    else []
  let r4 : List String :=
    let content_type := attachment.contentType.getD ""
    if !pyEmpty content_type then ["File type: " ++ content_type] else []
  let r5 : List String :=
    match message.receivedDateTime with
    | some s => if !pyEmpty s then ["Received: " ++ s] else []
    | none => []
  r1 ++ r2 ++ r3 ++ r4 ++ r5

/-- One scored (message, attachment) candidate dict. -/
structure Candidate where
  message_id : Option String
  attachment_id : Option String
  attachment_name : Option String
  message_subject : Option String
  sender_email : Option String
  received_date : Option String
  attachment_size : Option Int
  attachment_type : Option String
  confidence_score : ℚ
  match_reasons : List String
  deriving DecidableEq

/-- The result dict of a successful `analyze_and_filter_attachments` call. -/
structure AnalysisResult where
  status : String
  total_candidates : Nat
  high_confidence_matches : Nat
  recommended_attachment : Option Candidate
  all_candidates : List Candidate
  search_criteria : Criteria
  analysis_timestamp : String
  deriving DecidableEq

/-- The `IntelligentAgent` object: `__init__` sets `confidence_threshold = 0.7`. -/
structure IntelligentAgent where
  confidence_threshold : ℚ
  deriving DecidableEq

/-- Constructor `IntelligentAgent.__init__`. -/
def IntelligentAgent.init : IntelligentAgent :=
  { confidence_threshold := 7/10 }

/-- The candidate dict built for one (message, attachment) pair inside the nested
loops of `analyze_and_filter_attachments`. -/
def buildCandidate (parseDays : String → Option Int)
    (jsonFilename : String → Option String) (search_criteria : Criteria)
    (message : Message) (attachment : Attachment) : Candidate :=
  { message_id := message.id
    attachment_id := attachment.id
    attachment_name := attachment.name
    message_subject := message.subject
    sender_email := message.senderAddress
    received_date := message.receivedDateTime
    attachment_size := attachment.size
    attachment_type := attachment.contentType
    confidence_score := (scoreMessage parseDays message search_criteria +
      scoreAttachment jsonFilename attachment search_criteria) / 2
    match_reasons := getMatchReasons message attachment search_criteria }

/-- The candidate list in enumeration order (messages in input order, attachments in
per-message order), as built by the nested loops of `analyze_and_filter_attachments`
before the sort. -/
def rawCandidates (parseDays : String → Option Int)
    (jsonFilename : String → Option String)
    (messages_data : List Message) (search_criteria : Criteria) : List Candidate :=
  messages_data.flatMap (fun message =>
    message.attachments.map (buildCandidate parseDays jsonFilename search_criteria message))

/-- The Boolean order of `candidates.sort(key=..., reverse=True)`: descending by
confidence score. -/
def candLE (a b : Candidate) : Bool :=
  decide (b.confidence_score ≤ a.confidence_score)

/-- The candidate list after the stable descending sort. -/
def sortedCandidates (parseDays : String → Option Int)
    (jsonFilename : String → Option String)
    (messages_data : List Message) (search_criteria : Criteria) : List Candidate :=
  (rawCandidates parseDays jsonFilename messages_data search_criteria).mergeSort candLE

/-- Method `IntelligentAgent.analyze_and_filter_attachments` (success path; the wrapping
`try` makes the body total, and the body raises nothing on the inputs representable
here). -/
def analyze_and_filter_attachments (agent : IntelligentAgent)
    (parseDays : String → Option Int) (jsonFilename : String → Option String)
    (nowIso : String)
    (messages_data : List Message) (search_criteria : Criteria) : AnalysisResult :=
  let candidates := sortedCandidates parseDays jsonFilename messages_data search_criteria
  let high_confidence_matches := candidates.filter
    (fun c => decide (agent.confidence_threshold ≤ c.confidence_score))
  { status := "success"
    total_candidates := candidates.length
    high_confidence_matches := high_confidence_matches.length
    recommended_attachment := candidates.head?
    all_candidates := candidates.take 5
    search_criteria := search_criteria
    analysis_timestamp := nowIso }

/-! ### Bounds on the sub-scores -/

theorem senderScore_nonneg (m : Message) (c : Criteria) : 0 ≤ senderScore m c := by
  simp only [senderScore]
  split_ifs <;> norm_num

theorem senderScore_le (m : Message) (c : Criteria) : senderScore m c ≤ senderMax c := by
  simp only [senderScore, senderMax]
  split_ifs <;> norm_num

theorem subjectScore_nonneg (m : Message) (c : Criteria) : 0 ≤ subjectScore m c := by
  simp only [subjectScore]
  split_ifs <;> norm_num

theorem subjectScore_le (m : Message) (c : Criteria) : subjectScore m c ≤ subjectMax c := by
  simp only [subjectScore, subjectMax]
  split_ifs <;> norm_num

/-- In the live branch of the recency computation the ratio `days_ago / days_back`
lies in `[0, 1]` as soon as the message age is nonnegative. -/
theorem recency_ratio_bounds (d db : ℤ) (hd : 0 ≤ d) (hle : d ≤ db) (hne : db ≠ 0) :
    0 ≤ (d : ℚ) / (db : ℚ) ∧ (d : ℚ) / (db : ℚ) ≤ 1 := by
  have hdb : (0 : ℤ) < db := lt_of_le_of_ne (hd.trans hle) (Ne.symm hne)
  have hdbq : (0 : ℚ) < (db : ℚ) := by exact_mod_cast hdb
  constructor
  · exact div_nonneg (by exact_mod_cast hd) hdbq.le
  · rw [div_le_one hdbq]
    exact_mod_cast hle

/-- Bounds on the core expression of the live recency branch. -/
theorem recencyCore_bounds (d db : ℤ) (hd : 0 ≤ d) :
    0 ≤ (if d ≤ db then if db = 0 then (0:ℚ) else 1/2 * (1 - (d:ℚ)/(db:ℚ)) else 0) ∧
      (if d ≤ db then if db = 0 then (0:ℚ) else 1/2 * (1 - (d:ℚ)/(db:ℚ)) else 0)
        ≤ 1/2 := by
  by_cases h2 : d ≤ db
  · by_cases h3 : db = 0
    · rw [if_pos h2, if_pos h3]; norm_num
    · rw [if_pos h2, if_neg h3]
      have hr := recency_ratio_bounds d db hd h2 h3
      constructor <;> linarith [hr.1, hr.2]
  · rw [if_neg h2]; norm_num

theorem recencyScore_nonneg (pd : String → Option Int) (m : Message) (c : Criteria)
    (hpd : ∀ s d, pd s = some d → 0 ≤ d) : 0 ≤ recencyScore pd m c := by
  simp only [recencyScore]
  cases hm : m.receivedDateTime with
  | none => norm_num
  | some s =>
    dsimp only
    cases hps : pyEmpty s
    · simp only [Bool.false_eq_true, if_false]
      cases hp : pd s with
      | none => norm_num
      | some d =>
        dsimp only
        exact (recencyCore_bounds d _ (hpd s d hp)).1
    · simp

theorem recencyScore_le (pd : String → Option Int) (m : Message) (c : Criteria)
    (hpd : ∀ s d, pd s = some d → 0 ≤ d) : recencyScore pd m c ≤ recencyMax m := by
  simp only [recencyScore, recencyMax]
  cases hm : m.receivedDateTime with
  | none => norm_num [truthy]
  | some s =>
    dsimp only
    rw [show truthy (some s) = !pyEmpty s from rfl]
    cases hps : pyEmpty s
    · simp only [Bool.not_false, if_true, Bool.false_eq_true, if_false]
      cases hp : pd s with
      | none => norm_num
      | some d =>
        dsimp only
        exact (recencyCore_bounds d _ (hpd s d hp)).2
    · simp

theorem senderMax_nonneg (c : Criteria) : 0 ≤ senderMax c := by
  simp only [senderMax]; split_ifs <;> norm_num

theorem subjectMax_nonneg (c : Criteria) : 0 ≤ subjectMax c := by
  simp only [subjectMax]; split_ifs <;> norm_num

theorem recencyMax_nonneg (m : Message) : 0 ≤ recencyMax m := by
  simp only [recencyMax]; split_ifs <;> norm_num

/-- Method `_score_message` returns a value in `[0, 1]` provided every parsed message age is
nonnegative (no message received in the future of "now"). -/
theorem scoreMessage_bounds (pd : String → Option Int) (m : Message) (c : Criteria)
    (hpd : ∀ s d, pd s = some d → 0 ≤ d) :
    0 ≤ scoreMessage pd m c ∧ scoreMessage pd m c ≤ 1 := by
  simp only [scoreMessage]
  split_ifs with h
  · constructor
    · exact div_nonneg
        (add_nonneg (add_nonneg (senderScore_nonneg m c) (subjectScore_nonneg m c))
          (recencyScore_nonneg pd m c hpd)) h.le
    · rw [div_le_one h]
      exact add_le_add (add_le_add (senderScore_le m c) (subjectScore_le m c))
        (recencyScore_le pd m c hpd)
  · norm_num

theorem nameScore_nonneg (jf : String → Option String) (a : Attachment) (c : Criteria) :
    0 ≤ nameScore jf a c := by
  simp only [nameScore]
  split_ifs <;> norm_num

theorem nameScore_le (jf : String → Option String) (a : Attachment) (c : Criteria) :
    nameScore jf a c ≤ nameMax c := by
  simp only [nameScore, nameMax]
  split_ifs <;> norm_num

theorem typeScore_bounds (a : Attachment) : 0 ≤ typeScore a ∧ typeScore a ≤ 3/10 := by
  simp only [typeScore]
  split_ifs <;> norm_num

theorem sizeScore_bounds (a : Attachment) : 0 ≤ sizeScore a ∧ sizeScore a ≤ 1/5 := by
  simp only [sizeScore]
  split_ifs <;> norm_num

theorem nameMax_nonneg (c : Criteria) : 0 ≤ nameMax c := by
  simp only [nameMax]; split_ifs <;> norm_num

/-- Method `_score_attachment` returns a value in `[0, 1]` on every input. -/
theorem scoreAttachment_bounds (jf : String → Option String) (a : Attachment)
    (c : Criteria) : 0 ≤ scoreAttachment jf a c ∧ scoreAttachment jf a c ≤ 1 := by
  simp only [scoreAttachment]
  split_ifs with h
  · constructor
    · exact div_nonneg
        (add_nonneg (add_nonneg (nameScore_nonneg jf a c) (typeScore_bounds a).1)
          (sizeScore_bounds a).1) h.le
    · rw [div_le_one h]
      exact add_le_add (add_le_add (nameScore_le jf a c) (typeScore_bounds a).2)
        (sizeScore_bounds a).2
  · norm_num

/-- The combined confidence score of one candidate lies in `[0, 1]` provided every
parsed message age is nonnegative. -/
theorem buildCandidate_score_bounds (pd : String → Option Int)
    (jf : String → Option String) (crit : Criteria) (m : Message) (a : Attachment)
    (hpd : ∀ s d, pd s = some d → 0 ≤ d) :
    0 ≤ (buildCandidate pd jf crit m a).confidence_score ∧
      (buildCandidate pd jf crit m a).confidence_score ≤ 1 := by
  have h1 := scoreMessage_bounds pd m crit hpd
  have h2 := scoreAttachment_bounds jf a crit
  simp only [buildCandidate]
  constructor <;> [linarith [h1.1, h2.1]; linarith [h1.2, h2.2]]

/-! ### The candidate list and the sort -/

theorem mem_rawCandidates {pd : String → Option Int} {jf : String → Option String}
    {msgs : List Message} {crit : Criteria} {c : Candidate} :
    c ∈ rawCandidates pd jf msgs crit ↔
      ∃ m ∈ msgs, ∃ a ∈ m.attachments, c = buildCandidate pd jf crit m a := by
  simp only [rawCandidates, List.mem_flatMap, List.mem_map]
  constructor
  · rintro ⟨m, hm, a, ha, rfl⟩
    exact ⟨m, hm, a, ha, rfl⟩
  · rintro ⟨m, hm, a, ha, rfl⟩
    exact ⟨m, hm, a, ha, rfl⟩

theorem rawCandidates_score_bounds {pd : String → Option Int}
    {jf : String → Option String} {msgs : List Message} {crit : Criteria}
    (hpd : ∀ s d, pd s = some d → 0 ≤ d) :
    ∀ c ∈ rawCandidates pd jf msgs crit,
      0 ≤ c.confidence_score ∧ c.confidence_score ≤ 1 := by
  intro c hc
  obtain ⟨m, _, a, _, rfl⟩ := mem_rawCandidates.mp hc
  exact buildCandidate_score_bounds pd jf crit m a hpd

theorem candLE_trans : ∀ a b c : Candidate, candLE a b → candLE b c → candLE a c := by
  intro a b c hab hbc
  simp only [candLE, decide_eq_true_eq] at *
  exact le_trans hbc hab

theorem candLE_total : ∀ a b : Candidate, candLE a b || candLE b a := by
  intro a b
  simp only [candLE, Bool.or_eq_true, decide_eq_true_eq]
  exact le_total _ _

theorem sortedCandidates_perm (pd : String → Option Int) (jf : String → Option String)
    (msgs : List Message) (crit : Criteria) :
    List.Perm (sortedCandidates pd jf msgs crit) (rawCandidates pd jf msgs crit) :=
  List.mergeSort_perm _ _

theorem mem_sortedCandidates {pd : String → Option Int} {jf : String → Option String}
    {msgs : List Message} {crit : Criteria} {c : Candidate} :
    c ∈ sortedCandidates pd jf msgs crit ↔ c ∈ rawCandidates pd jf msgs crit :=
  List.mem_mergeSort

theorem sortedCandidates_pairwise (pd : String → Option Int)
    (jf : String → Option String) (msgs : List Message) (crit : Criteria) :
    (sortedCandidates pd jf msgs crit).Pairwise
      (fun a b => b.confidence_score ≤ a.confidence_score) := by
  have h := @List.sorted_mergeSort Candidate candLE candLE_trans candLE_total
    (rawCandidates pd jf msgs crit)
  exact h.imp (fun hab => by simpa [candLE] using hab)

/-- Stability of the sort: filtering the sorted list down to any fixed score value
gives exactly the same list (same elements, same order) as filtering the enumeration-
order candidate list. -/
theorem sortedCandidates_filter_score (pd : String → Option Int)
    (jf : String → Option String) (msgs : List Message) (crit : Criteria) (q : ℚ) :
    (sortedCandidates pd jf msgs crit).filter (fun c => decide (c.confidence_score = q))
      = (rawCandidates pd jf msgs crit).filter
          (fun c => decide (c.confidence_score = q)) := by
  set l := rawCandidates pd jf msgs crit with hl
  set p : Candidate → Bool := fun c => decide (c.confidence_score = q) with hp
  have hpair : (l.filter p).Pairwise (fun a b => candLE a b = true) := by
    apply List.pairwise_of_forall_mem_list
    intro a ha b hb
    have ha' := (List.mem_filter.mp ha).2
    have hb' := (List.mem_filter.mp hb).2
    simp only [hp, decide_eq_true_eq] at ha' hb'
    simp [candLE, ha', hb']
  have hsub : List.Sublist (l.filter p) (l.mergeSort candLE) :=
    List.sublist_mergeSort candLE_trans candLE_total hpair (List.filter_sublist l)
  have hsub2 : List.Sublist (l.filter p) ((l.mergeSort candLE).filter p) := by
    have h := hsub.filter p
    rwa [List.filter_eq_self.mpr (fun a ha => (List.mem_filter.mp ha).2)] at h
  have hperm : List.Perm ((l.mergeSort candLE).filter p) (l.filter p) :=
    (List.mergeSort_perm l candLE).filter p
  exact (hsub2.eq_of_length hperm.length_eq.symm).symm

/-! ### Claim theorems -/

/-- C1 (amended): provided every message age the clock computes from a
`receivedDateTime` is nonnegative (no message dated in the future of "now"), every
candidate returned by `analyze_and_filter_attachments` — in `all_candidates` and as
`recommended_attachment` — has a `confidence_score` in the closed interval `[0, 1]`.
The proviso is necessary: for a future-dated message the recency sub-score exceeds its
0.5 weight and the score can exceed 1 (see the counterexample). -/
theorem C1_candidate_scores_unit_interval (agent : IntelligentAgent)
    (pd : String → Option Int) (jf : String → Option String) (nowIso : String)
    (msgs : List Message) (crit : Criteria)
    (hpd : ∀ s d, pd s = some d → 0 ≤ d) :
    (∀ c ∈ (analyze_and_filter_attachments agent pd jf nowIso msgs crit).all_candidates,
        0 ≤ c.confidence_score ∧ c.confidence_score ≤ 1) ∧
      ∀ r, (analyze_and_filter_attachments agent pd jf nowIso msgs
          crit).recommended_attachment = some r →
        0 ≤ r.confidence_score ∧ r.confidence_score ≤ 1 := by
  have hall : ∀ c ∈ sortedCandidates pd jf msgs crit,
      0 ≤ c.confidence_score ∧ c.confidence_score ≤ 1 := by
    intro c hc
    exact rawCandidates_score_bounds hpd c (mem_sortedCandidates.mp hc)
  constructor
  · intro c hc
    exact hall c (List.mem_of_mem_take hc)
  · intro r hr
    cases hs : sortedCandidates pd jf msgs crit with
    | nil =>
      have : (analyze_and_filter_attachments agent pd jf nowIso msgs
          crit).recommended_attachment = (sortedCandidates pd jf msgs crit).head? := rfl
      rw [this, hs] at hr
      simp at hr
    | cons a t =>
      have : (analyze_and_filter_attachments agent pd jf nowIso msgs
          crit).recommended_attachment = (sortedCandidates pd jf msgs crit).head? := rfl
      rw [this, hs] at hr
      simp at hr
      subst hr
      exact hall a (by rw [hs]; exact List.mem_cons_self a t)

/-- Witness for C1: a concrete run (one message aged 3 days, empty criteria) where the
hypothesis holds and the bounds follow. -/
theorem C1_candidate_scores_unit_interval_witness :
    (∀ s d, (fun _ : String => some (3:ℤ)) s = some d → 0 ≤ d) ∧
      ((∀ c ∈ (analyze_and_filter_attachments IntelligentAgent.init
            (fun _ => some (3:ℤ)) (fun _ => none) "now"
            [⟨none, none, none, some "T", [⟨none, none, none, none⟩]⟩]
            ⟨none, none, none, none⟩).all_candidates,
          0 ≤ c.confidence_score ∧ c.confidence_score ≤ 1) ∧
        ∀ r, (analyze_and_filter_attachments IntelligentAgent.init
            (fun _ => some (3:ℤ)) (fun _ => none) "now"
            [⟨none, none, none, some "T", [⟨none, none, none, none⟩]⟩]
            ⟨none, none, none, none⟩).recommended_attachment = some r →
          0 ≤ r.confidence_score ∧ r.confidence_score ≤ 1) := by
  have hpd : ∀ s d, (fun _ : String => some (3:ℤ)) s = some d → 0 ≤ d := by
    intro s d h
    injection h with h
    omega
  exact ⟨hpd, C1_candidate_scores_unit_interval IntelligentAgent.init _ _ "now" _ _ hpd⟩

/-- Counterexample to C1 as stated: a message whose `receivedDateTime` parses to age
`-8` days (8 days in the future of "now"), with empty criteria and one attachment,
yields a returned candidate with `confidence_score = 15/14 > 1`: the recency sub-score
`0.5 * (1 - (-8)/7) = 15/14` is not bounded by its 0.5 weight for negative ages. -/
theorem C1_counterexample :
    ∃ c ∈ (analyze_and_filter_attachments IntelligentAgent.init (fun _ => some (-8))
        (fun _ => none) "now"
        [⟨none, none, none, some "T", [⟨none, none, none, none⟩]⟩]
        ⟨none, none, none, none⟩).all_candidates,
      1 < c.confidence_score := by
  have hlist : (analyze_and_filter_attachments IntelligentAgent.init (fun _ => some (-8))
        (fun _ => none) "now"
        [⟨none, none, none, some "T", [⟨none, none, none, none⟩]⟩]
        ⟨none, none, none, none⟩).all_candidates
      = [buildCandidate (fun _ => some (-8)) (fun _ => none) ⟨none, none, none, none⟩
          ⟨none, none, none, some "T", [⟨none, none, none, none⟩]⟩
          ⟨none, none, none, none⟩] := by
    simp [analyze_and_filter_attachments, sortedCandidates, rawCandidates]
  rw [hlist]
  refine ⟨_, List.mem_singleton_self _, ?_⟩
  norm_num [buildCandidate, scoreMessage, scoreAttachment, senderScore, subjectScore,
    recencyScore, senderMax, subjectMax, recencyMax, nameScore, typeScore, sizeScore,
    nameMax, truthy, pyEmpty, pyIn, pyLower, listContains, listStarts]

/-- C2: the candidate list produced by `analyze_and_filter_attachments` is sorted
non-increasing by `confidence_score`, and candidates with equal scores appear in their
original enumeration order (messages in input order, attachments in per-message
order): the returned `all_candidates` is the top-5 prefix of the sorted pass, the
sorted pass is pairwise non-increasing, and filtering the sorted pass down to any
fixed score value returns exactly the enumeration-order sublist with that score. -/
theorem C2_sorted_and_stable (agent : IntelligentAgent) (pd : String → Option Int)
    (jf : String → Option String) (nowIso : String) (msgs : List Message)
    (crit : Criteria) :
    (analyze_and_filter_attachments agent pd jf nowIso msgs crit).all_candidates
        = (sortedCandidates pd jf msgs crit).take 5 ∧
      (analyze_and_filter_attachments agent pd jf nowIso msgs
          crit).all_candidates.Pairwise
        (fun a b => b.confidence_score ≤ a.confidence_score) ∧
      (sortedCandidates pd jf msgs crit).Pairwise
        (fun a b => b.confidence_score ≤ a.confidence_score) ∧
      ∀ q : ℚ,
        (sortedCandidates pd jf msgs crit).filter
            (fun c => decide (c.confidence_score = q))
          = (rawCandidates pd jf msgs crit).filter
              (fun c => decide (c.confidence_score = q)) := by
  refine ⟨rfl, ?_, sortedCandidates_pairwise pd jf msgs crit,
    sortedCandidates_filter_score pd jf msgs crit⟩
  exact (sortedCandidates_pairwise pd jf msgs crit).sublist (List.take_sublist 5 _)

/-- C3: an empty messages list yields a successful result with an empty candidate
list, `total_candidates = 0`, `high_confidence_matches = 0`, and a null
`recommended_attachment`. -/
theorem C3_empty_messages (agent : IntelligentAgent) (pd : String → Option Int)
    (jf : String → Option String) (nowIso : String) (crit : Criteria) :
    (analyze_and_filter_attachments agent pd jf nowIso [] crit).status = "success" ∧
      (analyze_and_filter_attachments agent pd jf nowIso [] crit).all_candidates = [] ∧
      (analyze_and_filter_attachments agent pd jf nowIso [] crit).total_candidates = 0 ∧
      (analyze_and_filter_attachments agent pd jf nowIso []
        crit).high_confidence_matches = 0 ∧
      (analyze_and_filter_attachments agent pd jf nowIso []
        crit).recommended_attachment = none := by
  simp [analyze_and_filter_attachments, sortedCandidates, rawCandidates]

/-- C4: `analyze_and_filter_attachments` never propagates an exception for missing
optional fields: it always returns a result structure (status `"success"`), and a
missing sender address, subject, attachment name, content type, or size is treated as
an empty value contributing zero to the corresponding sub-score. -/
theorem C4_graceful_missing_fields (agent : IntelligentAgent)
    (pd : String → Option Int) (jf : String → Option String) (nowIso : String)
    (msgs : List Message) (crit : Criteria) (msg : Message) (att : Attachment) :
    (analyze_and_filter_attachments agent pd jf nowIso msgs crit).status = "success" ∧
      (msg.senderAddress = none → senderScore msg crit = 0) ∧
      (msg.subject = none → subjectScore msg crit = 0) ∧
      (att.name = none → nameScore jf att crit = 0) ∧
      (att.contentType = none → typeScore att = 0) ∧
      (att.size = none → sizeScore att = 0) := by
  refine ⟨rfl, ?_, ?_, ?_, ?_, ?_⟩
  · intro h
    simp [senderScore, h, pyLower, pyEmpty]
  · intro h
    simp [subjectScore, h, pyLower, pyEmpty]
  · intro h
    simp [nameScore, h, pyLower, pyEmpty]
  · intro h
    simp [typeScore, h, pyLower, pyEmpty, pyIn, listContains]
  · intro h
    norm_num [sizeScore, h]

/-- Witness for C4: a message and an attachment with every optional field missing,
under fully populated criteria, score zero on every sub-score and the call succeeds. -/
theorem C4_graceful_missing_fields_witness :
    (analyze_and_filter_attachments IntelligentAgent.init (fun _ => none)
        (fun _ => none) "now" [] ⟨some "a@b.c", some "invoice", some "x.pdf", none⟩).status
        = "success" ∧
      senderScore ⟨none, none, none, none, []⟩
        ⟨some "a@b.c", some "invoice", some "x.pdf", none⟩ = 0 ∧
      subjectScore ⟨none, none, none, none, []⟩
        ⟨some "a@b.c", some "invoice", some "x.pdf", none⟩ = 0 ∧
      nameScore (fun _ => none) ⟨none, none, none, none⟩
        ⟨some "a@b.c", some "invoice", some "x.pdf", none⟩ = 0 ∧
      typeScore ⟨none, none, none, none⟩ = 0 ∧
      sizeScore ⟨none, none, none, none⟩ = 0 := by
  have h := C4_graceful_missing_fields IntelligentAgent.init (fun _ => none)
    (fun _ => none) "now" [] ⟨some "a@b.c", some "invoice", some "x.pdf", none⟩
    ⟨none, none, none, none, []⟩ ⟨none, none, none, none⟩
  exact ⟨h.1, h.2.1 rfl, h.2.2.1 rfl, h.2.2.2.1 rfl, h.2.2.2.2.1 rfl, h.2.2.2.2.2 rfl⟩

/-- C5 (amended): `days_back` defaults to 7 only when the key is absent from the
criteria; when a non-positive `days_back` is supplied and message ages are
nonnegative, the recency sub-score contributes 0 (for a positive age the window test
fails, and for `days_back = 0` with age 0 the division by zero is swallowed by the
bare `except`) — it does not behave as if `days_back = 7`. -/
theorem C5_days_back_default (pd : String → Option Int) (m : Message) (c : Criteria)
    (db : ℤ) (hpd : ∀ s d, pd s = some d → 0 ≤ d) :
    (c.days_back = none →
      recencyScore pd m c = recencyScore pd m
        ⟨c.sender_email, c.email_subject, c.attachment_name, some 7⟩) ∧
      (c.days_back = some db → db ≤ 0 → recencyScore pd m c = 0) := by
  constructor
  · intro h
    simp [recencyScore, h]
  · intro h hdb
    simp only [recencyScore, h, Option.getD_some]
    cases hm : m.receivedDateTime with
    | none => rfl
    | some s =>
      dsimp only
      cases hps : pyEmpty s
      · simp only [Bool.false_eq_true, if_false]
        cases hp : pd s with
        | none => rfl
        | some d =>
          dsimp only
          have hd := hpd s d hp
          by_cases h2 : d ≤ db
          · have hdb0 : db = 0 := le_antisymm hdb (le_trans hd h2)
            rw [if_pos h2, if_pos hdb0]
          · rw [if_neg h2]
      · simp

/-- Witness for C5 (amended): a message aged 3 days under absent `days_back` scores as
with `days_back = 7`, and under `days_back = 0` the recency sub-score is 0. -/
theorem C5_days_back_default_witness :
    (recencyScore (fun _ => some (3:ℤ)) ⟨none, none, none, some "d", []⟩
        ⟨none, none, none, none⟩ =
      recencyScore (fun _ => some (3:ℤ)) ⟨none, none, none, some "d", []⟩
        ⟨none, none, none, some 7⟩) ∧
      recencyScore (fun _ => some (3:ℤ)) ⟨none, none, none, some "d", []⟩
        ⟨none, none, none, some 0⟩ = 0 := by
  have hpd : ∀ s d, (fun _ : String => some (3:ℤ)) s = some d → 0 ≤ d := by
    intro s d h
    injection h with h
    omega
  exact ⟨(C5_days_back_default (fun _ => some (3:ℤ)) ⟨none, none, none, some "d", []⟩
      ⟨none, none, none, none⟩ 0 hpd).1 rfl,
    (C5_days_back_default (fun _ => some (3:ℤ)) ⟨none, none, none, some "d", []⟩
      ⟨none, none, none, some 0⟩ 0 hpd).2 rfl (by norm_num)⟩

/-- Counterexample to C5 as stated: with a message aged 3 days, scoring with
`days_back = 0` yields message score 0, while the absent-key default 7 yields
`(0.5 * (1 - 3/7)) / 0.5 = 4/7` — so `days_back = 0` does not behave as
`days_back = 7`; the code only defaults when the key is absent, never for
non-positive values. -/
theorem C5_counterexample :
    scoreMessage (fun _ => some (3:ℤ)) ⟨none, none, none, some "d", []⟩
        ⟨none, none, none, some 0⟩ = 0 ∧
      scoreMessage (fun _ => some (3:ℤ)) ⟨none, none, none, some "d", []⟩
        ⟨none, none, none, none⟩ = 4/7 ∧
      (0 : ℚ) ≠ 4/7 := by
  norm_num [scoreMessage, senderScore, subjectScore, recencyScore, senderMax,
    subjectMax, recencyMax, truthy, pyEmpty]

/-- C6 (amended): every returned candidate whose attachment carries a non-empty
content type has a non-empty `match_reasons` (the "File type" reason is always
emitted for it).  The unconditional claim — non-empty reasons whenever the score is
positive — fails for a candidate whose score comes only from the size sub-score with
no content type and no received timestamp (see the counterexample). -/
theorem C6_reasons_nonempty_of_content_type (agent : IntelligentAgent)
    (pd : String → Option Int) (jf : String → Option String) (nowIso : String)
    (msgs : List Message) (crit : Criteria) :
    ∀ c ∈ (analyze_and_filter_attachments agent pd jf nowIso msgs crit).all_candidates,
      ∀ ct, c.attachment_type = some ct → pyEmpty ct = false →
        c.match_reasons ≠ [] := by
  intro c hc ct hct hne
  have hmem : c ∈ rawCandidates pd jf msgs crit :=
    mem_sortedCandidates.mp (List.mem_of_mem_take hc)
  obtain ⟨m, hm, a, ha, rfl⟩ := mem_rawCandidates.mp hmem
  simp only [buildCandidate] at hct ⊢
  simp [getMatchReasons, hct, hne]

/-- Witness for C6 (amended): a candidate whose attachment has content type
`application/pdf` has non-empty reasons. -/
theorem C6_reasons_nonempty_witness :
    (buildCandidate (fun _ => none) (fun _ => none) ⟨none, none, none, none⟩
        ⟨none, none, none, none, [⟨none, none, some "application/pdf", none⟩]⟩
        ⟨none, none, some "application/pdf", none⟩).match_reasons ≠ [] := by
  apply C6_reasons_nonempty_of_content_type IntelligentAgent.init (fun _ => none)
    (fun _ => none) "now"
    [⟨none, none, none, none, [⟨none, none, some "application/pdf", none⟩]⟩]
    ⟨none, none, none, none⟩ _ _ "application/pdf" rfl rfl
  simp [analyze_and_filter_attachments, sortedCandidates, rawCandidates]

/-- Counterexample to C6 as stated: a candidate scored only by the size sub-score
(size 5000, no content type, no received timestamp, no criteria supplied) is returned
with `confidence_score = 1/5 > 0` and an empty `match_reasons` list. -/
theorem C6_counterexample :
    ∃ c ∈ (analyze_and_filter_attachments IntelligentAgent.init (fun _ => none)
        (fun _ => none) "now"
        [⟨none, none, none, none, [⟨none, none, none, some 5000⟩]⟩]
        ⟨none, none, none, none⟩).all_candidates,
      0 < c.confidence_score ∧ c.match_reasons = [] := by
  have hlist : (analyze_and_filter_attachments IntelligentAgent.init (fun _ => none)
        (fun _ => none) "now"
        [⟨none, none, none, none, [⟨none, none, none, some 5000⟩]⟩]
        ⟨none, none, none, none⟩).all_candidates
      = [buildCandidate (fun _ => none) (fun _ => none) ⟨none, none, none, none⟩
          ⟨none, none, none, none, [⟨none, none, none, some 5000⟩]⟩
          ⟨none, none, none, some 5000⟩] := by
    simp [analyze_and_filter_attachments, sortedCandidates, rawCandidates]
  rw [hlist]
  refine ⟨_, List.mem_singleton_self _, ?_, ?_⟩
  · norm_num [buildCandidate, scoreMessage, scoreAttachment, senderScore, subjectScore,
      recencyScore, senderMax, subjectMax, recencyMax, nameScore, typeScore, sizeScore,
      nameMax, truthy, pyEmpty, pyIn, pyLower, listContains, listStarts]
  · simp [buildCandidate, getMatchReasons, truthy, pyEmpty]

theorem recencyScore_none (pd : String → Option Int) (m : Message) (c : Criteria)
    (h : m.receivedDateTime = none) : recencyScore pd m c = 0 := by
  simp [recencyScore, h]

theorem scoreMessage_clock_free (p1 p2 : String → Option Int) (m : Message)
    (c : Criteria) (h : m.receivedDateTime = none) :
    scoreMessage p1 m c = scoreMessage p2 m c := by
  simp [scoreMessage, recencyScore_none p1 m c h, recencyScore_none p2 m c h]

theorem buildCandidate_clock_free (p1 p2 : String → Option Int)
    (jf : String → Option String) (crit : Criteria) (m : Message) (a : Attachment)
    (h : m.receivedDateTime = none) :
    buildCandidate p1 jf crit m a = buildCandidate p2 jf crit m a := by
  simp [buildCandidate, scoreMessage_clock_free p1 p2 m crit h]

theorem rawCandidates_nil (pd : String → Option Int) (jf : String → Option String)
    (crit : Criteria) : rawCandidates pd jf [] crit = [] := rfl

theorem rawCandidates_cons (pd : String → Option Int) (jf : String → Option String)
    (m : Message) (rest : List Message) (crit : Criteria) :
    rawCandidates pd jf (m :: rest) crit
      = List.map (buildCandidate pd jf crit m) m.attachments
          ++ rawCandidates pd jf rest crit := by
  simp [rawCandidates]

theorem rawCandidates_clock_free (p1 p2 : String → Option Int)
    (jf : String → Option String) (msgs : List Message) (crit : Criteria)
    (h : ∀ m ∈ msgs, m.receivedDateTime = none) :
    rawCandidates p1 jf msgs crit = rawCandidates p2 jf msgs crit := by
  induction msgs with
  | nil => rw [rawCandidates_nil, rawCandidates_nil]
  | cons m rest ih =>
    have h1 : ∀ x ∈ rest, x.receivedDateTime = none :=
      fun x hx => h x (List.mem_cons_of_mem m hx)
    have h2 : List.map (buildCandidate p1 jf crit m) m.attachments
        = List.map (buildCandidate p2 jf crit m) m.attachments :=
      List.map_congr_left (fun a _ =>
        buildCandidate_clock_free p1 p2 jf crit m a (h m (List.mem_cons_self m rest)))
    rw [rawCandidates_cons, rawCandidates_cons, h2, ih h1]

/-- C7 (amended): with the clock held fixed the two runs agree in every field (the
function is a pure function of its inputs and the injected clock); but besides the
recency sub-score, the `analysis_timestamp` field also reads the wall clock — two
runs on identical inputs carrying no `receivedDateTime` (so the recency sub-score is
untouched by the clock) agree in every field except `analysis_timestamp`. -/
theorem C7_determinism_clock_isolation (agent : IntelligentAgent)
    (p1 p2 : String → Option Int) (jf : String → Option String) (n1 n2 : String)
    (msgs : List Message) (crit : Criteria)
    (h : ∀ m ∈ msgs, m.receivedDateTime = none) :
    analyze_and_filter_attachments agent p1 jf n1 msgs crit
      = { analyze_and_filter_attachments agent p2 jf n2 msgs crit with
          analysis_timestamp := n1 } := by
  have hraw := rawCandidates_clock_free p1 p2 jf msgs crit h
  simp [analyze_and_filter_attachments, sortedCandidates, hraw]

/-- Witness for C7 (amended): a concrete run on one timestamp-free message under two
different clocks. -/
theorem C7_determinism_clock_isolation_witness :
    analyze_and_filter_attachments IntelligentAgent.init (fun _ => some 1)
        (fun _ => none) "2024-01-01T00:00:00"
        [⟨none, none, none, none, [⟨none, none, none, none⟩]⟩] ⟨none, none, none, none⟩
      = { analyze_and_filter_attachments IntelligentAgent.init (fun _ => some 2)
            (fun _ => none) "2024-01-02T00:00:00"
            [⟨none, none, none, none, [⟨none, none, none, none⟩]⟩]
            ⟨none, none, none, none⟩ with
          analysis_timestamp := "2024-01-01T00:00:00" } := by
  apply C7_determinism_clock_isolation
  intro m hm
  rw [List.mem_singleton] at hm
  subst hm
  rfl

/-- Counterexample to C7 as stated: the claim says the result has no wall-clock
dependency other than the recency sub-score, but `analysis_timestamp` embeds the
clock: two runs on an empty messages list (no recency sub-score exists at all) at
different instants differ. -/
theorem C7_counterexample :
    analyze_and_filter_attachments IntelligentAgent.init (fun _ => none) (fun _ => none)
        "2024-01-01T00:00:00" [] ⟨none, none, none, none⟩
      ≠ analyze_and_filter_attachments IntelligentAgent.init (fun _ => none)
          (fun _ => none) "2024-01-02T00:00:00" [] ⟨none, none, none, none⟩ := by
  intro h
  have h' := congrArg AnalysisResult.analysis_timestamp h
  simp [analyze_and_filter_attachments] at h'

/-- C8: `recommended_attachment` is the first element of the sorted candidate list —
null when the pass produced no candidates — and consequently its `confidence_score`
is greater than or equal to the score of every candidate produced in the pass. -/
theorem C8_recommended_is_best (agent : IntelligentAgent) (pd : String → Option Int)
    (jf : String → Option String) (nowIso : String) (msgs : List Message)
    (crit : Criteria) :
    (analyze_and_filter_attachments agent pd jf nowIso msgs crit).recommended_attachment
        = (sortedCandidates pd jf msgs crit).head? ∧
      (rawCandidates pd jf msgs crit = [] →
        (analyze_and_filter_attachments agent pd jf nowIso msgs
          crit).recommended_attachment = none) ∧
      ∀ r, (analyze_and_filter_attachments agent pd jf nowIso msgs
          crit).recommended_attachment = some r →
        ∀ c ∈ rawCandidates pd jf msgs crit,
          c.confidence_score ≤ r.confidence_score := by
  refine ⟨rfl, ?_, ?_⟩
  · intro h
    have hnil : sortedCandidates pd jf msgs crit = [] := by
      have hp := sortedCandidates_perm pd jf msgs crit
      rw [h] at hp
      exact hp.eq_nil
    show (sortedCandidates pd jf msgs crit).head? = none
    rw [hnil]
    rfl
  · intro r hr c hc
    replace hr : (sortedCandidates pd jf msgs crit).head? = some r := hr
    have hcs : c ∈ sortedCandidates pd jf msgs crit := mem_sortedCandidates.mpr hc
    have hpw := sortedCandidates_pairwise pd jf msgs crit
    cases hs : sortedCandidates pd jf msgs crit with
    | nil =>
      rw [hs] at hr
      simp at hr
    | cons a t =>
      rw [hs] at hr hcs hpw
      simp only [List.head?_cons, Option.some.injEq] at hr
      subst hr
      rcases List.mem_cons.mp hcs with h | h
      · subst h
        exact le_refl _
      · exact List.rel_of_pairwise_cons hpw h

/-- Witness for C8: the empty run recommends null, and in a singleton run every
candidate has its score bounded by that of the recommended one. -/
theorem C8_recommended_is_best_witness :
    (analyze_and_filter_attachments IntelligentAgent.init (fun _ => none)
        (fun _ => none) "now" [] ⟨none, none, none, none⟩).recommended_attachment
        = none ∧
      ∀ c ∈ rawCandidates (fun _ => none) (fun _ => none)
          [⟨none, none, none, none, [⟨none, none, none, some 5000⟩]⟩]
          ⟨none, none, none, none⟩,
        c.confidence_score ≤ (buildCandidate (fun _ => none) (fun _ => none)
          ⟨none, none, none, none⟩
          ⟨none, none, none, none, [⟨none, none, none, some 5000⟩]⟩
          ⟨none, none, none, some 5000⟩).confidence_score := by
  constructor
  · exact (C8_recommended_is_best IntelligentAgent.init (fun _ => none) (fun _ => none)
      "now" [] ⟨none, none, none, none⟩).2.1 rfl
  · exact (C8_recommended_is_best IntelligentAgent.init (fun _ => none) (fun _ => none)
      "now" [⟨none, none, none, none, [⟨none, none, none, some 5000⟩]⟩]
      ⟨none, none, none, none⟩).2.2 _
      (by simp [analyze_and_filter_attachments, sortedCandidates, rawCandidates])

/-- C9: `high_confidence_matches` counts, over all candidates of the pass (not only
the returned top-5 slice), those whose `confidence_score` is at least the agent
confidence threshold, and `__init__` sets that threshold to 0.7. -/
theorem C9_high_confidence_count (agent : IntelligentAgent)
    (pd : String → Option Int) (jf : String → Option String) (nowIso : String)
    (msgs : List Message) (crit : Criteria) :
    (analyze_and_filter_attachments agent pd jf nowIso msgs
        crit).high_confidence_matches
        = ((rawCandidates pd jf msgs crit).filter
            (fun c => decide (agent.confidence_threshold ≤ c.confidence_score))).length ∧
      IntelligentAgent.init.confidence_threshold = 7/10 := by
  constructor
  · show ((sortedCandidates pd jf msgs crit).filter _).length = _
    exact ((sortedCandidates_perm pd jf msgs crit).filter _).length_eq
  · rfl

/-- C10: `all_candidates` is the first `min(total_candidates, 5)` elements of the
sorted candidate list, while `total_candidates` counts every scored (message,
attachment) pair — so it can exceed `all_candidates.length`, as the concrete
6-attachment run shows (total 6, returned slice of length 5). -/
theorem C10_top5_slice (agent : IntelligentAgent) (pd : String → Option Int)
    (jf : String → Option String) (nowIso : String) (msgs : List Message)
    (crit : Criteria) :
    ((analyze_and_filter_attachments agent pd jf nowIso msgs crit).all_candidates
        = (sortedCandidates pd jf msgs crit).take 5 ∧
      (analyze_and_filter_attachments agent pd jf nowIso msgs
          crit).all_candidates.length
        = min (analyze_and_filter_attachments agent pd jf nowIso msgs
            crit).total_candidates 5 ∧
      (analyze_and_filter_attachments agent pd jf nowIso msgs crit).total_candidates
        = (rawCandidates pd jf msgs crit).length) ∧
      (analyze_and_filter_attachments IntelligentAgent.init (fun _ => none)
          (fun _ => none) "now"
          [⟨none, none, none, none, [⟨none, none, none, none⟩, ⟨none, none, none, none⟩,
            ⟨none, none, none, none⟩, ⟨none, none, none, none⟩, ⟨none, none, none, none⟩,
            ⟨none, none, none, none⟩]⟩]
          ⟨none, none, none, none⟩).total_candidates = 6 ∧
      (analyze_and_filter_attachments IntelligentAgent.init (fun _ => none)
          (fun _ => none) "now"
          [⟨none, none, none, none, [⟨none, none, none, none⟩, ⟨none, none, none, none⟩,
            ⟨none, none, none, none⟩, ⟨none, none, none, none⟩, ⟨none, none, none, none⟩,
            ⟨none, none, none, none⟩]⟩]
          ⟨none, none, none, none⟩).all_candidates.length = 5 := by
  refine ⟨⟨rfl, ?_, ?_⟩, ?_, ?_⟩
  · show ((sortedCandidates pd jf msgs crit).take 5).length
        = min (sortedCandidates pd jf msgs crit).length 5
    rw [List.length_take]
    exact Nat.min_comm _ _
  · show (sortedCandidates pd jf msgs crit).length = _
    exact (sortedCandidates_perm pd jf msgs crit).length_eq
  · show (sortedCandidates _ _ _ _).length = 6
    rw [sortedCandidates, List.length_mergeSort]
    rfl
  · show ((sortedCandidates _ _ _ _).take 5).length = 5
    rw [List.length_take, sortedCandidates, List.length_mergeSort]
    rfl

end InvoiceAgent
